import Mathlib

/-!
Verification of the detection-to-violation core of the
Smart-Traffic-Violation-Detection-System repository.

The Python sources are shallowly embedded: each definition below mirrors a
function or code block of `app.py`, `app_enhanced.py`, `app_demo.py` or
`app_guaranteed.py`; the file and line of the embedded code are cited in the
doc comments.  Machine integers are modelled as `Nat`/`Int`, Python `None` as
`Option`, Python strings as `String` (or `List Char` where character-level
reasoning over the CSV export is needed).
-/

/-- The closed vocabulary of violation tags
(`app_enhanced.py:195-207`, `app_guaranteed.py:50-56`). -/
inductive ViolationTag where
  | noHelmet
  | tripleRiding
  | noLicensePlate
  | redLightJumping
deriving DecidableEq

/-- The string label the Python code uses for each tag
(`app_enhanced.py:199-206`). -/
def tagString : ViolationTag → String
  | ViolationTag.noHelmet => "No Helmet"
  | ViolationTag.tripleRiding => "Triple Riding"
  | ViolationTag.noLicensePlate => "No License Plate"
  | ViolationTag.redLightJumping => "Red Light Jumping"

/-- The fixed fine table (`app_enhanced.py:195-207`,
`app_guaranteed.py:50-56`). -/
def tagFine : ViolationTag → Nat
  | ViolationTag.noHelmet => 500
  | ViolationTag.tripleRiding => 1000
  | ViolationTag.noLicensePlate => 300
  | ViolationTag.redLightJumping => 800

/-- One iteration of the `for violation in violations` loop body of
`TrafficViolationDetector.calculate_fine` (`app_enhanced.py:198-206`): the
`if`/`elif` chain adds the tag's fine and, having no `else`, adds nothing
for an unrecognized tag. -/
def fineFor (violation : String) : Nat :=
  if violation = "No Helmet" then 500
  else if violation = "Triple Riding" then 1000
  else if violation = "No License Plate" then 300
  else if violation = "Red Light Jumping" then 800
  else 0

/-- `TrafficViolationDetector.calculate_fine` (`app_enhanced.py:195-207`):
`fine = 0` then the loop accumulates `fineFor` over the list. -/
def calculate_fine (violations : List String) : Nat :=
  violations.foldl (fun fine violation => fine + fineFor violation) 0

/-- Helmet status of a rider: Python `helmet_status` is `True`/`False`/`None`
in `app.py:203,226-231`, and `'Wearing'`/`'Not Wearing'`/`'Not Found'` in
`app_demo.py:72`. -/
inductive HelmetStatus where
  | worn
  | notWorn
  | unknown
deriving DecidableEq

/-- License-plate status (`app.py:204,232-233`, `app_demo.py:73`). -/
inductive PlateStatus where
  | visible
  | notVisible
  | unknown
deriving DecidableEq

/-- The rider record aggregated from a rider ROI: the fields of the
`detections` dict of `app.py:172-179` that the rule engine consults, plus the
optional plate string.  (The float `confidence` and the bounding box are not
consulted by any rule and are omitted.) -/
structure RiderRecord where
  helmetStatus : HelmetStatus
  licensePlateStatus : PlateStatus
  licensePlateNumber : Option String
  passengerCount : Nat

/-- The deterministic rule engine mapping a rider record to its violation
tags, as in `app_demo.py:76-83` (and the per-rider predicates of
`app.py:358-361`, `app_enhanced.py:186-192`): a `violations = []` list grown
by three independent `if` appends. -/
def classify (r : RiderRecord) : List ViolationTag :=
  let violations : List ViolationTag := []
  let violations :=
    if r.helmetStatus = HelmetStatus.notWorn
    then violations ++ [ViolationTag.noHelmet] else violations
  let violations :=
    if r.licensePlateStatus ≠ PlateStatus.visible
    then violations ++ [ViolationTag.noLicensePlate] else violations
  if 3 ≤ r.passengerCount
  then violations ++ [ViolationTag.tripleRiding] else violations

lemma calculate_fine_foldl (l : List String) (a : Nat) :
    l.foldl (fun fine violation => fine + fineFor violation) a
      = a + (l.map fineFor).sum := by
  induction l generalizing a with
  | nil => simp
  | cons v t ih => simp [List.foldl_cons, ih, Nat.add_assoc]

lemma calculate_fine_eq_sum (l : List String) :
    calculate_fine l = (l.map fineFor).sum := by
  simpa using calculate_fine_foldl l 0

lemma fineFor_tagString (t : ViolationTag) : fineFor (tagString t) = tagFine t := by
  cases t <;> rfl

/-- C1: for every set of tags drawn from the closed vocabulary,
`calculate_fine` returns exactly the sum of the fixed constants over the tags
present, each contributing once; in particular, for every `RiderRecord` the
fine of `classify r` is the sum of the constants for exactly the tags
`classify r` returns. -/
theorem calculate_fine_sums_tag_table :
    (∀ s : Finset ViolationTag,
      calculate_fine (s.toList.map tagString) = ∑ t ∈ s, tagFine t) ∧
    (∀ r : RiderRecord,
      calculate_fine ((classify r).map tagString) = ((classify r).map tagFine).sum) := by
  constructor
  · intro s
    rw [calculate_fine_eq_sum, List.map_map]
    have : (fineFor ∘ tagString) = tagFine := by
      funext t; exact fineFor_tagString t
    rw [this, Finset.sum_to_list]
  · intro r
    rw [calculate_fine_eq_sum, List.map_map]
    have : (fineFor ∘ tagString) = tagFine := by
      funext t; exact fineFor_tagString t
    rw [this]

/-- C2: `classify` contains `noHelmet` iff the helmet status is `notWorn`,
contains `noLicensePlate` iff the plate status differs from `visible` (so it
also fires on `unknown`), and contains `tripleRiding` iff the passenger count
is at least 3; the record (unknown, unknown, 0 passengers) yields exactly
`[noLicensePlate]` with fine 300. -/
theorem classify_membership :
    (∀ r : RiderRecord,
      (ViolationTag.noHelmet ∈ classify r ↔ r.helmetStatus = HelmetStatus.notWorn) ∧
      (ViolationTag.noLicensePlate ∈ classify r ↔ r.licensePlateStatus ≠ PlateStatus.visible) ∧
      (ViolationTag.tripleRiding ∈ classify r ↔ 3 ≤ r.passengerCount)) ∧
    classify ⟨HelmetStatus.unknown, PlateStatus.unknown, none, 0⟩
      = [ViolationTag.noLicensePlate] ∧
    calculate_fine
      ((classify ⟨HelmetStatus.unknown, PlateStatus.unknown, none, 0⟩).map tagString)
      = 300 := by
  refine ⟨?_, by decide, by decide⟩
  intro r
  unfold classify
  by_cases h1 : r.helmetStatus = HelmetStatus.notWorn <;>
    by_cases h2 : r.licensePlateStatus = PlateStatus.visible <;>
      by_cases h3 : 3 ≤ r.passengerCount <;>
        simp [h1, h2, h3]

/-- The four violation strings recognized by the fine table
(`app_enhanced.py:199-206`). -/
def knownTags : List String :=
  ["No Helmet", "Triple Riding", "No License Plate", "Red Light Jumping"]

/-- C3 counterexample: `calculate_fine` does not fail on an unrecognized tag
(the `if`/`elif` chain of `app_enhanced.py:198-206` has no `else` and no
`raise`; no `ConfigurationError` exists in the repository): it returns a
total that prices the unrecognized tag at 0. -/
theorem calculate_fine_no_configuration_error :
    calculate_fine ["No Helmet", "Bogus Tag"] = 500 ∧
    calculate_fine ["Bogus Tag"] = 0 := by
  constructor <;> rfl

/-- C3 amended: appending a tag outside the closed vocabulary leaves the
total unchanged — the unrecognized tag is silently priced at 0 rather than
rejected with a `ConfigurationError`. -/
theorem calculate_fine_unknown_tag_priced_zero
    (violations : List String) (t : String) (h : t ∉ knownTags) :
    calculate_fine (violations ++ [t]) = calculate_fine violations := by
  have ht : fineFor t = 0 := by
    simp only [knownTags, List.mem_cons, List.mem_singleton, not_or] at h
    obtain ⟨h1, h2, h3, h4⟩ := h
    simp [fineFor, h1, h2, h3, h4]
  rw [calculate_fine_eq_sum, calculate_fine_eq_sum, List.map_append]
  simp [ht]

/-- Witness for C3 amended at a concrete input. -/
theorem calculate_fine_unknown_tag_priced_zero_witness :
    calculate_fine ["No Helmet", "Parking"] = calculate_fine ["No Helmet"] :=
  calculate_fine_unknown_tag_priced_zero ["No Helmet"] "Parking" (by decide)

/-- The region-of-interest crop coordinates of `app.py`: the expanded box is
built by subtracting/adding `margin` (`app.py:164` with margin 10,
`app.py:235` with margin 50) and the numpy slice clamps with
`max(0, ·)` on the start coordinates and `min(shape, ·)` on the end
coordinates (`app.py:166`, `app.py:237`).  Returns
`(xStart, yStart, xEnd, yEnd)` of the slice
`im0s[yStart:yEnd, xStart:xEnd]`. -/
def extract_region (w h : Int) (box : Int × Int × Int × Int) (margin : Int) :
    Int × Int × Int × Int :=
  let x1 := box.1 - margin
  let y1 := box.2.1 - margin
  let x2 := box.2.2.1 + margin
  let y2 := box.2.2.2 + margin
  (max 0 x1, max 0 y1, min w x2, min h y2)

/-- C5 counterexample: for a 100×100 image and a box lying entirely outside
it, the start coordinate of the crop is 190, which does not lie within
`[0, width)`: the expanded box is not clamped to the image on that side (only
`max(0, ·)` is applied to start coordinates), so the claimed invariant
"output crop coordinates always lie within the image" fails, and no
`EmptyRegion` failure is raised — the slice is simply empty. -/
theorem extract_region_start_can_exceed_width :
    (extract_region 100 100 (200, 200, 210, 210) 10).1 = 190 ∧
    ¬ (extract_region 100 100 (200, 200, 210, 210) 10).1 < 100 := by
  constructor <;> decide

/-- C5 amended: the crop start coordinates are clamped to be nonnegative and
the end coordinates to be at most the image width/height, and every pixel
coordinate actually accessed by the slice (a coordinate `x` with
`xStart ≤ x < xEnd`, respectively `y` with `yStart ≤ y < yEnd`) lies within
`[0, width) × [0, height)`; if the clamped box collapses (start ≥ end) the
slice is empty rather than an error — there is no `EmptyRegion` failure. -/
theorem extract_region_accessed_pixels_in_bounds
    (w h x1 y1 x2 y2 margin : Int) :
    0 ≤ (extract_region w h (x1, y1, x2, y2) margin).1 ∧
    0 ≤ (extract_region w h (x1, y1, x2, y2) margin).2.1 ∧
    (extract_region w h (x1, y1, x2, y2) margin).2.2.1 ≤ w ∧
    (extract_region w h (x1, y1, x2, y2) margin).2.2.2 ≤ h ∧
    (∀ x : Int, (extract_region w h (x1, y1, x2, y2) margin).1 ≤ x →
      x < (extract_region w h (x1, y1, x2, y2) margin).2.2.1 → 0 ≤ x ∧ x < w) ∧
    (∀ y : Int, (extract_region w h (x1, y1, x2, y2) margin).2.1 ≤ y →
      y < (extract_region w h (x1, y1, x2, y2) margin).2.2.2 → 0 ≤ y ∧ y < h) := by
  simp only [extract_region]
  refine ⟨le_max_left 0 _, le_max_left 0 _, min_le_left _ _, min_le_left _ _, ?_, ?_⟩
  · intro x hx hx2
    constructor
    · exact le_trans (le_max_left 0 _) hx
    · exact lt_of_lt_of_le hx2 (min_le_left _ _)
  · intro y hy hy2
    constructor
    · exact le_trans (le_max_left 0 _) hy
    · exact lt_of_lt_of_le hy2 (min_le_left _ _)

/-- Witness for C5 amended at a concrete input: image 100×100, box
(20,20,40,40), margin 10; pixel x = 20 is accessed and in bounds. -/
theorem extract_region_accessed_pixels_in_bounds_witness :
    0 ≤ (extract_region 100 100 (20, 20, 40, 40) 10).1 ∧
    (0 ≤ (20 : Int) ∧ (20 : Int) < 100) :=
  ⟨(extract_region_accessed_pixels_in_bounds 100 100 20 20 40 40 10).1,
   (extract_region_accessed_pixels_in_bounds 100 100 20 20 40 40 10).2.2.2.2.1
     20 (by decide) (by decide)⟩

/-- `TrafficDetector.detect_license_plate` (`app.py:106-122`): returns the
first plate of the API response when the call succeeds and yields results,
and the string `"Not detected"` when the call fails or returns no results.
The API outcome is the `Option String` oracle argument. -/
def detect_license_plate (apiResult : Option String) : String :=
  match apiResult with
  | some plate => plate
  | none => "Not detected"

/-- One sub-detection found inside a rider ROI together with the outcome of
the external steps taken for it by `TrafficDetector.analyze_rider`
(`app.py:222-244`): `cropOk` is whether the 50px plate crop and
`cv2.imwrite` succeed (the `try` of `app.py:236-242`), and
`recognizerResult` is the plate-reader oracle consumed by
`detect_license_plate` when it is invoked. -/
structure SubDet where
  className : String
  box : Int × Int × Int × Int
  cropOk : Bool
  recognizerResult : Option String

/-- The mutable locals of `TrafficDetector.analyze_rider` (`app.py:203-206`):
all statuses start as Python `None` and `passenger_count` starts at 0.
`lp_region` records the clamped 50px-margin sub-ROI most recently written to
`temp_lp.jpg` and handed to the recognizer (`app.py:235-240`). -/
structure RiderState where
  helmet_status : Option Bool := none
  lp_status : Option Bool := none
  lp_number : Option String := none
  lp_region : Option (Int × Int × Int × Int) := none
  passenger_count : Nat := 0
deriving DecidableEq

/-- The per-detection branch of `TrafficDetector.analyze_rider`
(`app.py:226-244`): `"Helmet"` and `"No Helmet"` set the helmet status and
increment the passenger count; `"LP"` sets the plate status, crops a
50px-margin sub-ROI from the `w × h` rider image and invokes the recognizer
on it, falling to `lp_number = "Detection failed"` when the crop step
raises; any other class leaves the state unchanged. -/
def analyzeStep (w h : Int) (s : RiderState) (d : SubDet) : RiderState :=
  if d.className = "Helmet" then
    { s with helmet_status := some true, passenger_count := s.passenger_count + 1 }
  else if d.className = "No Helmet" then
    { s with helmet_status := some false, passenger_count := s.passenger_count + 1 }
  else if d.className = "LP" then
    if d.cropOk then
      { s with lp_status := some true,
               lp_region := some (extract_region w h d.box 50),
               lp_number := some (detect_license_plate d.recognizerResult) }
    else
      { s with lp_status := some true, lp_number := some "Detection failed" }
  else s

/-- `TrafficDetector.analyze_rider` (`app.py:198-246`): fold the detection
branch over the sub-detections of the rider ROI, starting from the
all-`None` state. -/
def analyze_rider (w h : Int) (ds : List SubDet) : RiderState :=
  ds.foldl (analyzeStep w h) {}

/-- C6 counterexample: when an `"LP"` sub-detection is found, its crop
succeeds but the recognizer fails, `lp_number` is set to `"Not detected"`
(the fallback of `detect_license_plate`, `app.py:122`), not to the claimed
`"Detection failed"` sentinel (which `app.py:244` reserves for crop
failures). -/
theorem analyze_rider_recognizer_failure_not_detected :
    (analyze_rider 100 100 [⟨"LP", (10, 10, 30, 30), true, none⟩]).lp_number
      = some "Not detected" ∧
    (analyze_rider 100 100 [⟨"LP", (10, 10, 30, 30), true, none⟩]).lp_status
      = some true ∧
    (analyze_rider 100 100 [⟨"LP", (10, 10, 30, 30), true, none⟩]).lp_number
      ≠ some "Detection failed" := by
  refine ⟨rfl, rfl, by decide⟩

lemma analyzeStep_lp_status_stays_true (w h : Int) (s : RiderState) (d : SubDet)
    (hs : s.lp_status = some true) : (analyzeStep w h s d).lp_status = some true := by
  unfold analyzeStep
  split_ifs <;> simp [hs]

lemma foldl_lp_status_stays_true (w h : Int) (ds : List SubDet) (s : RiderState)
    (hs : s.lp_status = some true) :
    (ds.foldl (analyzeStep w h) s).lp_status = some true := by
  induction ds generalizing s with
  | nil => exact hs
  | cons d t ih => exact ih _ (analyzeStep_lp_status_stays_true w h s d hs)

lemma foldl_lp_found_status_true (w h : Int) (ds : List SubDet) (s : RiderState)
    (hd : ∃ d ∈ ds, d.className = "LP") :
    (ds.foldl (analyzeStep w h) s).lp_status = some true := by
  induction ds generalizing s with
  | nil => exact absurd hd (by simp)
  | cons d t ih =>
    rcases hd with ⟨e, he, hlp⟩
    rcases List.mem_cons.mp he with rfl | het
    · simp only [List.foldl_cons]
      apply foldl_lp_status_stays_true
      unfold analyzeStep
      rw [hlp]
      split_ifs <;> simp_all
    · exact ih _ ⟨e, het, hlp⟩

/-- C6 amended: whenever an `"LP"` sub-detection is found, the plate status
is set to visible (`some true`); when the crop step succeeds the recognizer
is invoked on the 50px-margin clamped sub-ROI and `lp_number` records its
outcome — the sentinel `"Not detected"` when the recognizer fails; when the
crop step fails, `lp_number` is the sentinel `"Detection failed"`.  In every
case `lp_number` is set rather than left absent, so "attempted but failed"
is distinguishable from the initial "not attempted" (`none`). -/
theorem analyze_rider_lp_handling (w h : Int) :
    (∀ ds : List SubDet, (∃ d ∈ ds, d.className = "LP") →
      (analyze_rider w h ds).lp_status = some true) ∧
    (∀ (s : RiderState) (d : SubDet), d.className = "LP" →
      ((analyzeStep w h s d).lp_status = some true ∧
       (analyzeStep w h s d).lp_number ≠ none ∧
       (d.cropOk = true →
         (analyzeStep w h s d).lp_region = some (extract_region w h d.box 50) ∧
         (analyzeStep w h s d).lp_number
           = some (detect_license_plate d.recognizerResult)) ∧
       (d.cropOk = true → d.recognizerResult = none →
         (analyzeStep w h s d).lp_number = some "Not detected") ∧
       (d.cropOk = false →
         (analyzeStep w h s d).lp_number = some "Detection failed"))) := by
  constructor
  · intro ds hd
    exact foldl_lp_found_status_true w h ds {} hd
  · intro s d hlp
    unfold analyzeStep
    rw [hlp]
    have h1 : ¬ ("LP" = "Helmet") := by decide
    have h2 : ¬ ("LP" = "No Helmet") := by decide
    simp only [if_neg h1, if_neg h2, if_pos rfl]
    cases hc : d.cropOk with
    | true =>
      refine ⟨by simp, by simp, fun _ => ⟨by simp, by simp⟩, fun _ hr => ?_, by simp⟩
      simp [detect_license_plate, hr]
    | false => simp

/-- Witness for C6 amended at concrete inputs. -/
theorem analyze_rider_lp_handling_witness :
    (analyze_rider 100 100 [⟨"LP", (10, 10, 30, 30), false, none⟩]).lp_status
      = some true ∧
    (analyzeStep 100 100 {} ⟨"LP", (10, 10, 30, 30), false, none⟩).lp_number
      = some "Detection failed" := by
  have h1 := (analyze_rider_lp_handling 100 100).1
    [⟨"LP", (10, 10, 30, 30), false, none⟩]
    ⟨⟨"LP", (10, 10, 30, 30), false, none⟩, List.mem_singleton.mpr rfl, rfl⟩
  have h2 := ((analyze_rider_lp_handling 100 100).2
    {} ⟨"LP", (10, 10, 30, 30), false, none⟩ rfl).2.2.2.2 rfl
  exact ⟨h1, h2⟩

/-- The occupant-indicating sub-detection classes: `"Helmet"` and
`"No Helmet"` are the two branches of `app.py:226-231` that increment
`passenger_count`. -/
def isOccupantClass (d : SubDet) : Bool :=
  decide (d.className = "Helmet") || decide (d.className = "No Helmet")

lemma analyzeStep_passenger_count (w h : Int) (s : RiderState) (d : SubDet) :
    (analyzeStep w h s d).passenger_count
      = s.passenger_count + (if isOccupantClass d then 1 else 0) := by
  unfold analyzeStep isOccupantClass
  by_cases h1 : d.className = "Helmet" <;>
    by_cases h2 : d.className = "No Helmet" <;>
      by_cases h3 : d.className = "LP" <;>
        cases hc : d.cropOk <;> simp [h1, h2, h3, hc]

lemma foldl_passenger_count (w h : Int) (ds : List SubDet) (s : RiderState) :
    (ds.foldl (analyzeStep w h) s).passenger_count
      = s.passenger_count + (ds.filter isOccupantClass).length := by
  induction ds generalizing s with
  | nil => simp
  | cons d t ih =>
    simp only [List.foldl_cons]
    rw [ih, analyzeStep_passenger_count]
    by_cases hd : isOccupantClass d <;> (simp [hd, List.filter_cons]; try omega)

/-- C7: the passenger count of a rider analysis equals the number of
occupant-indicating sub-detections (`"Helmet"` or `"No Helmet"`) folded in —
summed over all such detections, not just the last — hence is at least the
number of helmet-status detections, and is monotonically non-decreasing as
each further sub-detection is folded in.  (Non-negativity holds by the `Nat`
type of the count.) -/
theorem analyze_rider_passenger_count (w h : Int) :
    (∀ ds : List SubDet,
      (analyze_rider w h ds).passenger_count = (ds.filter isOccupantClass).length) ∧
    (∀ ds : List SubDet,
      (ds.filter isOccupantClass).length ≤ (analyze_rider w h ds).passenger_count) ∧
    (∀ (s : RiderState) (d : SubDet),
      s.passenger_count ≤ (analyzeStep w h s d).passenger_count) := by
  refine ⟨fun ds => ?_, fun ds => ?_, fun s d => ?_⟩
  · simpa using foldl_passenger_count w h ds {}
  · have := foldl_passenger_count w h ds {}
    simp only [analyze_rider]
    omega
  · rw [analyzeStep_passenger_count]
    omega

/-- C8: the rule engine is a deterministic pure function of the rider
record's consulted fields — two runs on records agreeing on helmet status,
plate status and passenger count (in particular two runs on the same
unchanged record) return the identical tag list; nothing outside those
fields influences the result. -/
theorem classify_deterministic (r₁ r₂ : RiderRecord)
    (h1 : r₁.helmetStatus = r₂.helmetStatus)
    (h2 : r₁.licensePlateStatus = r₂.licensePlateStatus)
    (h3 : r₁.passengerCount = r₂.passengerCount) :
    classify r₁ = classify r₂ := by
  unfold classify
  rw [h1, h2, h3]

/-- Witness for C8: two records identical except for the (never consulted)
plate-number field classify identically. -/
theorem classify_deterministic_witness :
    classify ⟨HelmetStatus.notWorn, PlateStatus.unknown, none, 3⟩
      = classify ⟨HelmetStatus.notWorn, PlateStatus.unknown, some "KA01AB1234", 3⟩ :=
  classify_deterministic _ _ rfl rfl rfl

/-- One session record of `app_guaranteed.py` (`generate_violation_detection`,
`app_guaranteed.py:70-79`), restricted to the fields the dashboard and the
CSV export read: filename, the violations list, the fine amount and the
timestamp string. -/
structure GRecord where
  filename : String
  violations : List String
  fine_amount : Nat
  timestamp : String

/-- `total = len(st.session_state.detection_history)`
(`app_guaranteed.py:228`). -/
def totalProcessed (history : List GRecord) : Nat := history.length

/-- `violations = sum(len([v for v in r['violations'] if v != "No Violation"])
for r in history)` (`app_guaranteed.py:229`): the number of violation tags,
summed over records. -/
def totalViolations (history : List GRecord) : Nat :=
  (history.map
    (fun r => (r.violations.filter (fun v => decide (v ≠ "No Violation"))).length)).sum

/-- `fines = sum(r['fine_amount'] for r in history)`
(`app_guaranteed.py:230`). -/
def totalFines (history : List GRecord) : Nat :=
  (history.map (fun r => r.fine_amount)).sum

/-- `rate = (violations / total * 100) if total > 0 else 0`
(`app_guaranteed.py:231`); Python float division modelled exactly on `ℚ`. -/
def violationRate (history : List GRecord) : ℚ :=
  if 0 < totalProcessed history then
    (totalViolations history : ℚ) / (totalProcessed history : ℚ) * 100
  else 0

/-- C4 counterexample: one processed record carrying two violation tags gives
`totalViolations = 2` over `totalProcessed = 1`, so the violation rate is
200 — outside the claimed interval `[0,100]` (the code counts violation tags,
not violating records). -/
theorem violationRate_can_exceed_100 :
    violationRate
      [⟨"traffic_001.jpg", ["No Helmet", "Triple Riding"], 1500,
        "2025-01-01 10:00:00"⟩] = 200 ∧
    ¬ violationRate
      [⟨"traffic_001.jpg", ["No Helmet", "Triple Riding"], 1500,
        "2025-01-01 10:00:00"⟩] ≤ 100 := by
  have h : violationRate
      [⟨"traffic_001.jpg", ["No Helmet", "Triple Riding"], 1500,
        "2025-01-01 10:00:00"⟩] = 200 := by
    simp only [violationRate, totalViolations, totalProcessed]
    norm_num [List.filter_cons, List.filter_nil,
      show ¬ ("No Helmet" = "No Violation") from by decide,
      show ¬ ("Triple Riding" = "No Violation") from by decide]
  refine ⟨h, ?_⟩
  rw [h]
  norm_num

/-- C4 amended: the violation rate is computed as
`totalViolations / totalProcessed * 100` whenever `totalProcessed > 0` and is
0 when nothing was processed (no division by zero); it is always
nonnegative, and a session with zero appended records yields all-zero
statistics.  It is not bounded by 100, because `totalViolations` counts
violation tags (a record can carry several). -/
theorem violationRate_properties (history : List GRecord) :
    0 ≤ violationRate history ∧
    (0 < totalProcessed history →
      violationRate history
        = (totalViolations history : ℚ) / (totalProcessed history : ℚ) * 100) ∧
    totalProcessed [] = 0 ∧ totalViolations [] = 0 ∧ totalFines [] = 0 ∧
    violationRate [] = 0 := by
  refine ⟨?_, ?_, rfl, rfl, rfl, rfl⟩
  · unfold violationRate
    split_ifs
    · positivity
    · exact le_refl 0
  · intro hp
    unfold violationRate
    rw [if_pos hp]

/-- Witness for C4 amended at a concrete nonempty session. -/
theorem violationRate_properties_witness :
    0 ≤ violationRate [⟨"a.jpg", ["No Violation"], 0, "t"⟩] ∧
    violationRate [⟨"a.jpg", ["No Violation"], 0, "t"⟩]
      = (totalViolations [⟨"a.jpg", ["No Violation"], 0, "t"⟩] : ℚ)
        / (totalProcessed [⟨"a.jpg", ["No Violation"], 0, "t"⟩] : ℚ) * 100 :=
  ⟨(violationRate_properties _).1,
   (violationRate_properties _).2.1 (by decide)⟩

/-- A Python value as it appears in the tuples returned by
`TrafficDetector.process_image` (`app.py:124-196`): `None`, the annotated
image `im0s`, or a list abstracted by its length (the always-empty `results`
list of `app.py:138` and the `detections` list). -/
inductive PyVal where
  | pyNone
  | pyImage
  | pyList (length : Nat)
deriving DecidableEq

/-- The tuple returned by `TrafficDetector.process_image` on each of its
three paths (`app.py:124-196`), as a list of Python values whose length is
the tuple's arity: model not loaded → `(None, None, None, None)`
(`app.py:127`); internal exception → `(None, None, None)` (`app.py:196`);
success → `(im0s, results, detections)` (`app.py:192`) with `results` always
the empty list. -/
def process_image (model_loaded : Bool) (raises : Bool) (numDetections : Nat) :
    List PyVal :=
  if model_loaded = false then
    [PyVal.pyNone, PyVal.pyNone, PyVal.pyNone, PyVal.pyNone]
  else if raises then
    [PyVal.pyNone, PyVal.pyNone, PyVal.pyNone]
  else
    [PyVal.pyImage, PyVal.pyList 0, PyVal.pyList numDetections]

/-- C10: the result shape of `process_image` is path-dependent — arity 4 when
the model is not loaded, arity 3 on the success and exception paths — so no
single fixed-arity unpacking succeeds on all three paths (the arities
differ). -/
theorem process_image_arity_path_dependent :
    (∀ raises numDetections,
      (process_image false raises numDetections).length = 4) ∧
    (∀ raises numDetections,
      (process_image true raises numDetections).length = 3) ∧
    (process_image false false 0).length ≠ (process_image true false 0).length := by
  refine ⟨?_, ?_, by decide⟩
  · intro r n; rfl
  · intro r n; cases r <;> rfl

/-- The character of a decimal digit, as Python's `str` of an `int` prints
it (`f"{result['fine_amount']}"`, `app_guaranteed.py:260`). -/
def digitChar (d : Nat) : Char :=
  if d = 0 then '0' else if d = 1 then '1' else if d = 2 then '2'
  else if d = 3 then '3' else if d = 4 then '4' else if d = 5 then '5'
  else if d = 6 then '6' else if d = 7 then '7' else if d = 8 then '8'
  else '9'

/-- Decimal rendering of a natural number (most significant digit first),
fuel-structured so that it evaluates; `toDecimal` supplies ample fuel. -/
def toDecimalAux (fuel : Nat) (n : Nat) : List Char :=
  match fuel with
  | 0 => []
  | fuel + 1 =>
    if n < 10 then [digitChar n]
    else toDecimalAux fuel (n / 10) ++ [digitChar (n % 10)]

/-- Python's decimal `str` of a nonnegative `int`. -/
def toDecimal (n : Nat) : List Char := toDecimalAux (n + 1) n

/-- Numeric value of a decimal digit character. -/
def charVal (c : Char) : Nat :=
  if c = '1' then 1 else if c = '2' then 2 else if c = '3' then 3
  else if c = '4' then 4 else if c = '5' then 5 else if c = '6' then 6
  else if c = '7' then 7 else if c = '8' then 8 else if c = '9' then 9
  else 0

/-- Parse a decimal digit string back to a natural number. -/
def parseDec (cs : List Char) : Nat :=
  cs.foldl (fun a c => a * 10 + charVal c) 0

/-- Split a character list at every occurrence of `sep` (the empty input is
one empty field, as for Python's `"".split`). -/
def splitChar (sep : Char) : List Char → List (List Char)
  | [] => [[]]
  | c :: cs =>
    if c = sep then [] :: splitChar sep cs
    else
      match splitChar sep cs with
      | [] => [[c]]
      | g :: gs => (c :: g) :: gs

/-- `"; ".join(result['violations'])` (`app_guaranteed.py:259`). -/
def semicolonJoin : List String → List Char
  | [] => []
  | [v] => v.toList
  | v :: vs => v.toList ++ ';' :: ' ' :: semicolonJoin vs

/-- The header line of the exported CSV (`app_guaranteed.py:257`), without
its trailing newline. -/
def csvHeader : List Char := "Filename,Violations,Fine_Amount,Timestamp".toList

/-- One data row of the exported CSV without its trailing newline:
`f"{result['filename']},{violations_str},{result['fine_amount']},{result['timestamp']}"`
(`app_guaranteed.py:260`). -/
def csvRow (r : GRecord) : List Char :=
  r.filename.toList ++ ',' ::
    (semicolonJoin r.violations ++ ',' ::
      (toDecimal r.fine_amount ++ ',' :: r.timestamp.toList))

/-- The newline-terminated data rows accumulated by the
`for result in st.session_state.detection_history` loop
(`app_guaranteed.py:258-260`). -/
def csvBody : List GRecord → List Char
  | [] => []
  | r :: t => csvRow r ++ '\n' :: csvBody t

/-- The full `csv_content` string (`app_guaranteed.py:257-260`): header line
then the data rows, every line newline-terminated, all fields unquoted. -/
def writeCsv (history : List GRecord) : List Char :=
  csvHeader ++ '\n' :: csvBody history

/-- Modelled from the spec: the repository has no CSV reader (the export of
`app_guaranteed.py:254-267` is download-only), but §6's report-export
contract requires that round-tripping the serialization preserve record
count and the sum of fine amounts.  Following the spec's row shape
`{filename, violations, fineAmount, timestamp}`, the reader splits the
content into newline-separated lines, drops the header line and empty
lines, and splits each remaining line into comma-separated cells. -/
def readRows (content : List Char) : List (List (List Char)) :=
  (((splitChar '\n' content).drop 1).filter (fun l => decide (l ≠ []))).map
    (splitChar ',')

/-- Modelled from the spec: the number of records the reader recovers. -/
def readCount (content : List Char) : Nat := (readRows content).length

/-- Modelled from the spec: the sum of the fine amounts the reader recovers
(the third cell of each row). -/
def readFineSum (content : List Char) : Nat :=
  ((readRows content).map (fun cells => parseDec (cells.getD 2 []))).sum

lemma digitChar_ne (d : Nat) : digitChar d ≠ '\n' ∧ digitChar d ≠ ',' := by
  unfold digitChar
  split_ifs <;> exact ⟨by decide, by decide⟩

lemma charVal_digitChar (d : Nat) (h : d < 10) : charVal (digitChar d) = d := by
  interval_cases d <;> rfl

lemma parseDec_append (l : List Char) (c : Char) :
    parseDec (l ++ [c]) = parseDec l * 10 + charVal c := by
  unfold parseDec
  rw [List.foldl_append]
  rfl

lemma parseDec_toDecimalAux (fuel : Nat) :
    ∀ n : Nat, n < 10 ^ fuel → parseDec (toDecimalAux fuel n) = n := by
  induction fuel with
  | zero =>
    intro n hn
    simp only [pow_zero, Nat.lt_one_iff] at hn
    subst hn
    rfl
  | succ f ih =>
    intro n hn
    unfold toDecimalAux
    split_ifs with h10
    · have h1 : parseDec [digitChar n] = 0 * 10 + charVal (digitChar n) := rfl
      rw [h1, charVal_digitChar n h10]
      omega
    · rw [parseDec_append]
      have hdiv : n / 10 < 10 ^ f := by
        rw [Nat.div_lt_iff_lt_mul (by norm_num : 0 < 10)]
        calc n < 10 ^ (f + 1) := hn
        _ = 10 ^ f * 10 := by rw [pow_succ]
      rw [ih (n / 10) hdiv, charVal_digitChar (n % 10) (Nat.mod_lt n (by norm_num))]
      omega

lemma parseDec_toDecimal (n : Nat) : parseDec (toDecimal n) = n := by
  apply parseDec_toDecimalAux
  calc n < 10 ^ n := Nat.lt_pow_self (by norm_num) n
  _ ≤ 10 ^ (n + 1) := Nat.pow_le_pow_right (by norm_num) (Nat.le_succ n)

lemma toDecimalAux_chars (fuel : Nat) :
    ∀ n c, c ∈ toDecimalAux fuel n → c ≠ '\n' ∧ c ≠ ',' := by
  induction fuel with
  | zero => intro n c hc; exact absurd hc (List.not_mem_nil c)
  | succ f ih =>
    intro n c hc
    unfold toDecimalAux at hc
    split_ifs at hc with h10
    · rw [List.mem_singleton] at hc
      exact hc ▸ digitChar_ne n
    · rcases List.mem_append.mp hc with h | h
      · exact ih (n / 10) c h
      · rw [List.mem_singleton] at h
        exact h ▸ digitChar_ne (n % 10)

lemma toDecimal_chars (n : Nat) (c : Char) (hc : c ∈ toDecimal n) :
    c ≠ '\n' ∧ c ≠ ',' :=
  toDecimalAux_chars (n + 1) n c hc

lemma splitChar_append_sep (sep : Char) (a b : List Char) (ha : sep ∉ a) :
    splitChar sep (a ++ sep :: b) = a :: splitChar sep b := by
  induction a with
  | nil => simp [splitChar]
  | cons c a ih =>
    have hc : c ≠ sep := fun h => ha (h ▸ List.mem_cons_self c a)
    have ha2 : sep ∉ a := fun h => ha (List.mem_cons_of_mem c h)
    simp only [List.cons_append, splitChar, if_neg hc]
    have hih : splitChar sep (List.append a (sep :: b)) = a :: splitChar sep b := ih ha2
    rw [hih]

lemma splitChar_no_sep (sep : Char) (a : List Char) (ha : sep ∉ a) :
    splitChar sep a = [a] := by
  induction a with
  | nil => rfl
  | cons c a ih =>
    have hc : c ≠ sep := fun h => ha (h ▸ List.mem_cons_self c a)
    have ha2 : sep ∉ a := fun h => ha (List.mem_cons_of_mem c h)
    simp only [splitChar, if_neg hc, ih ha2]

lemma semicolonJoin_chars (c : Char) (hs : c ≠ ';') (hsp : c ≠ ' ') :
    ∀ vs : List String, (∀ v ∈ vs, c ∉ v.toList) → c ∉ semicolonJoin vs
  | [] => fun _ h => by simp [semicolonJoin] at h
  | [v] => fun hv h => by
      simp only [semicolonJoin] at h
      exact hv v (List.mem_singleton.mpr rfl) h
  | v :: w :: t => fun hv h => by
      simp only [semicolonJoin, List.mem_append, List.mem_cons] at h
      rcases h with h | h | h | h
      · exact hv v (List.mem_cons_self v (w :: t)) h
      · exact hs h
      · exact hsp h
      · exact semicolonJoin_chars c hs hsp (w :: t)
          (fun u hu => hv u (List.mem_cons_of_mem v hu)) h

/-- A record whose string fields contain no newline and no comma — the
regime in which the unquoted CSV of `app_guaranteed.py:257-260` is
well-formed. -/
def CleanRecord (r : GRecord) : Prop :=
  ('\n' ∉ r.filename.toList ∧ ',' ∉ r.filename.toList) ∧
  ('\n' ∉ r.timestamp.toList ∧ ',' ∉ r.timestamp.toList) ∧
  (∀ v ∈ r.violations, '\n' ∉ v.toList ∧ ',' ∉ v.toList)

instance (r : GRecord) : Decidable (CleanRecord r) := by
  unfold CleanRecord
  infer_instance

lemma csvRow_no_newline (r : GRecord) (hc : CleanRecord r) : '\n' ∉ csvRow r := by
  intro h
  simp only [csvRow, List.mem_append, List.mem_cons] at h
  rcases h with h | h | h | h | h | h | h
  · exact hc.1.1 h
  · exact absurd h (by decide)
  · exact semicolonJoin_chars '\n' (by decide) (by decide) r.violations
      (fun v hv => (hc.2.2 v hv).1) h
  · exact absurd h (by decide)
  · exact (toDecimal_chars r.fine_amount '\n' h).1 rfl
  · exact absurd h (by decide)
  · exact hc.2.1.1 h

lemma splitChar_csvRow (r : GRecord) (hc : CleanRecord r) :
    splitChar ',' (csvRow r)
      = [r.filename.toList, semicolonJoin r.violations,
         toDecimal r.fine_amount, r.timestamp.toList] := by
  have hsj : ',' ∉ semicolonJoin r.violations :=
    semicolonJoin_chars ',' (by decide) (by decide) r.violations
      (fun v hv => (hc.2.2 v hv).2)
  have hdec : ',' ∉ toDecimal r.fine_amount := fun h =>
    (toDecimal_chars r.fine_amount ',' h).2 rfl
  unfold csvRow
  rw [splitChar_append_sep ',' _ _ hc.1.2, splitChar_append_sep ',' _ _ hsj,
      splitChar_append_sep ',' _ _ hdec, splitChar_no_sep ',' _ hc.2.1.2]

lemma csvRow_ne_nil (r : GRecord) : csvRow r ≠ [] := by
  unfold csvRow
  simp

lemma splitChar_csvBody (history : List GRecord)
    (hc : ∀ r ∈ history, CleanRecord r) :
    splitChar '\n' (csvBody history) = history.map csvRow ++ [[]] := by
  induction history with
  | nil => rfl
  | cons r t ih =>
    rw [csvBody,
        splitChar_append_sep '\n' _ _
          (csvRow_no_newline r (hc r (List.mem_cons_self r t))),
        ih (fun u hu => hc u (List.mem_cons_of_mem r hu))]
    rfl

lemma readRows_writeCsv (history : List GRecord)
    (hc : ∀ r ∈ history, CleanRecord r) :
    readRows (writeCsv history)
      = history.map (fun r => splitChar ',' (csvRow r)) := by
  unfold readRows writeCsv
  rw [splitChar_append_sep '\n' _ _ (by decide), List.drop_one, List.tail_cons,
      splitChar_csvBody history hc, List.filter_append]
  have h1 : (history.map csvRow).filter (fun l => decide (l ≠ [])) = history.map csvRow := by
    apply List.filter_eq_self.mpr
    intro a ha
    rcases List.mem_map.mp ha with ⟨r, _, rfl⟩
    simpa using csvRow_ne_nil r
  have h2 : ([([] : List Char)]).filter (fun l => decide (l ≠ [])) = [] := rfl
  rw [h1, h2, List.append_nil, List.map_map]
  rfl

/-- C9 counterexample: the CSV writer quotes nothing, so a record whose
filename contains a newline is read back as two rows — the round trip does
not preserve the record count. -/
theorem writeCsv_newline_breaks_roundtrip :
    readCount
      (writeCsv [⟨"a\nb.jpg", ["No Violation"], 0, "2025-01-01 10:00:00"⟩]) = 2 ∧
    ([⟨"a\nb.jpg", ["No Violation"], 0, "2025-01-01 10:00:00"⟩] : List GRecord).length
      = 1 := by
  exact ⟨rfl, rfl⟩

/-- C9 amended: for every record sequence whose filenames, timestamps and
violation tags contain no newline and no comma, reading the exported CSV
back recovers exactly the record count and the sum of the fine amounts. -/
theorem writeCsv_roundtrip (history : List GRecord)
    (hclean : ∀ r ∈ history, CleanRecord r) :
    readCount (writeCsv history) = history.length ∧
    readFineSum (writeCsv history) = totalFines history := by
  constructor
  · unfold readCount
    rw [readRows_writeCsv history hclean, List.length_map]
  · unfold readFineSum
    rw [readRows_writeCsv history hclean, List.map_map]
    have key : ∀ h2 : List GRecord, (∀ r ∈ h2, CleanRecord r) →
        (h2.map ((fun cells => parseDec (cells.getD 2 []))
            ∘ (fun r => splitChar ',' (csvRow r)))).sum = totalFines h2 := by
      intro h2
      induction h2 with
      | nil => intro _; rfl
      | cons r t ih =>
        intro hc2
        simp only [List.map_cons, List.sum_cons, Function.comp]
        rw [splitChar_csvRow r (hc2 r (List.mem_cons_self r t))]
        have hget : ([r.filename.toList, semicolonJoin r.violations,
            toDecimal r.fine_amount, r.timestamp.toList]).getD 2 []
            = toDecimal r.fine_amount := rfl
        rw [hget, parseDec_toDecimal,
            ih (fun u hu => hc2 u (List.mem_cons_of_mem r hu))]
        simp [totalFines]
    exact key history hclean

/-- Witness for C9 amended at a concrete clean record. -/
theorem writeCsv_roundtrip_witness :
    readCount
      (writeCsv [⟨"traffic_001.jpg", ["No Helmet"], 500, "2025-01-01 10:00:00"⟩])
      = 1 ∧
    readFineSum
      (writeCsv [⟨"traffic_001.jpg", ["No Helmet"], 500, "2025-01-01 10:00:00"⟩])
      = totalFines
          [⟨"traffic_001.jpg", ["No Helmet"], 500, "2025-01-01 10:00:00"⟩] :=
  writeCsv_roundtrip
    [⟨"traffic_001.jpg", ["No Helmet"], 500, "2025-01-01 10:00:00"⟩] (by decide)
